import Mathlib

/-!
Verification of the Flask-Made-Easy utility scripts.

This file gives a shallow embedding of the two Python scripts of the
repository, `src/utils/import.py` (the relational CSV importer) and
`src/utils/add-images.py` (the image enricher), and proves or refutes the
frozen claims about them.

Conventions of the embedding:
* Python strings are Lean `String`s; helpers such as `str.strip()`,
  `str.lower()`, `str.replace(c1, c2)` are modelled on the ASCII
  character range (the inputs of the claims are ASCII).
* `int`/`float` values are modelled with `Nat`/`Int` and an exact decimal
  representation of parsed floating literals; see `PyFloat` below.
* The SQLite database is modelled as explicit lists of rows; the
  `sqlite3` calls made by the importer (`INSERT`, `INSERT OR IGNORE`,
  `SELECT`) become pure state transformers on that structure.
* Exceptions raised by the database driver while a row is processed are
  modelled by a budget oracle: for each row the oracle may say after how
  many successful `cur.execute` calls an exception fires.
-/

set_option maxRecDepth 8000
set_option exponentiation.threshold 1100

namespace FlaskMadeEasy

/-! ## Python string helpers -/

/-- The ASCII whitespace characters recognised by Python's `str.strip()`
(space, tab, newline, carriage return, vertical tab, form feed). -/
def isPyWs (c : Char) : Bool :=
  c = ' ' || c = Char.ofNat 9 || c = Char.ofNat 10 || c = Char.ofNat 13 ||
  c = Char.ofNat 11 || c = Char.ofNat 12

/-- Drop leading characters satisfying `isPyWs`. -/
def trimL (l : List Char) : List Char := l.dropWhile isPyWs

/-- Drop trailing characters satisfying `isPyWs`. -/
def trimR (l : List Char) : List Char := (trimL l.reverse).reverse

/-- Model of Python `str.strip()` (no arguments): remove leading and
trailing whitespace. -/
def pyStrip (s : String) : String := String.mk (trimR (trimL s.data))

/-- Model of Python `str.lower()` on the ASCII range. -/
def lowerChar (c : Char) : Char :=
  if 'A' ≤ c ∧ c ≤ 'Z' then Char.ofNat (c.toNat + 32) else c

/-- Model of Python `str.lower()`. -/
def pyLower (s : String) : String := String.mk (s.data.map lowerChar)

/-- Model of Python `str.replace(a, b)` for single-character `a`, `b`
(the only uses in the source: `replace("\n", " ")` and
`replace("'", '"')`). -/
def pyReplaceChar (a b : Char) (s : String) : String :=
  String.mk (s.data.map fun c => if c = a then b else c)

/-! ## Model of Python `float()` and `int(float())`

Python's `float(raw)` strips whitespace and parses an optional sign
followed by either `inf`/`infinity`/`nan` (case-insensitive) or a decimal
literal with optional fraction and exponent, where underscores are
allowed between digits.  We model the parsed value exactly (as sign,
decimal mantissa and exponent); the rounding of the decimal to a binary
double is not modelled, except that values at or beyond the IEEE-754
double overflow threshold become infinite, as `float()` does.
`int(f)` truncates a finite float toward zero and raises on
infinities/NaN. -/

/-- A parsed Python float: NaN, a signed infinity, or an exact finite
decimal `(-1)^neg * mant * 10^(ex - scale)`. -/
inductive PyFloat where
  | nan : PyFloat
  | inf (neg : Bool) : PyFloat
  | finite (neg : Bool) (mant : Nat) (scale : Nat) (ex : Int) : PyFloat
deriving DecidableEq, Repr

/-- Parse an optional leading `+`/`-` sign; returns `(negative, rest)`. -/
def parseSign : List Char → Bool × List Char
  | [] => (false, [])
  | c :: cs =>
    if c = '+' then (false, cs)
    else if c = '-' then (true, cs)
    else (false, c :: cs)

/-- Case-insensitively strip the keyword `kw` from the front of `cs`. -/
def matchCI : List Char → List Char → Option (List Char)
  | [], cs => some cs
  | _ :: _, [] => none
  | k :: ks, c :: cs => if lowerChar c = k then matchCI ks cs else none

/-- Continue collecting digits after at least one digit has been read;
an underscore is accepted only when squeezed between two digits, as in
Python numeric literals.  Returns `(digits, rest)`. -/
def digitsUCont : List Char → List Char × List Char
  | [] => ([], [])
  | c :: cs =>
    if c.isDigit then
      let (d, r) := digitsUCont cs
      (c :: d, r)
    else if c = '_' then
      match cs with
      | d :: cs' =>
        if d.isDigit then
          let (ds, r) := digitsUCont cs'
          (d :: ds, r)
        else ([], c :: cs)
      | [] => ([], [c])
    else ([], c :: cs)

/-- Collect a digit sequence that must begin with a digit, allowing
underscores between digits.  Returns `(digits, rest)`; `digits = []`
when the input does not start with a digit. -/
def digitsU : List Char → List Char × List Char
  | [] => ([], [])
  | c :: cs =>
    if c.isDigit then
      let (d, r) := digitsUCont cs
      (c :: d, r)
    else ([], c :: cs)

/-- Numeric value of a list of decimal digit characters. -/
def natOfDigits (l : List Char) : Nat :=
  l.foldl (fun n c => n * 10 + (c.toNat - 48)) 0

/-- Parse the decimal part of a Python float literal (after the sign):
integer digits, optional `.` and fraction digits, optional exponent.
The whole input must be consumed. -/
def parseDecimal (neg : Bool) (cs : List Char) : Option PyFloat :=
  let (ip, cs1) := digitsU cs
  let (fp, cs2) :=
    match cs1 with
    | c :: cs' => if c = '.' then digitsU cs' else ([], cs1)
    | [] => ([], ([] : List Char))
  if ip = [] ∧ fp = [] then none
  else
    let mant := natOfDigits (ip ++ fp)
    let scale := fp.length
    match cs2 with
    | [] => some (.finite neg mant scale 0)
    | c :: cs' =>
      if c = 'e' ∨ c = 'E' then
        let (esgn, cs'') := parseSign cs'
        let (ed, cs''') := digitsU cs''
        if ed = [] then none
        else if cs''' = [] then
          let e : Int := if esgn then -(natOfDigits ed : Int) else (natOfDigits ed : Int)
          some (.finite neg mant scale e)
        else none
      else none

/-- Model of Python `float(s)`: `none` when `float` raises `ValueError`. -/
def pyFloatParse (s : String) : Option PyFloat :=
  let cs := trimR (trimL s.data)
  let (neg, cs) := parseSign cs
  match matchCI "infinity".data cs with
  | some [] => some (.inf neg)
  | _ =>
    match matchCI "inf".data cs with
    | some [] => some (.inf neg)
    | _ =>
      match matchCI "nan".data cs with
      | some [] => some .nan
      | _ => parseDecimal neg cs

/-- The smallest decimal magnitude that overflows an IEEE-754 double
under round-to-nearest-even: `2^1024 - 2^970`. -/
def ovfBound : Nat := 2 ^ 1024 - 2 ^ 970

/-- Does `mant * 10^(ex - scale) ≥ b` hold (comparison of the exact
decimal magnitude against a natural bound)? -/
def magGE (mant scale : Nat) (ex : Int) (b : Nat) : Bool :=
  let e : Int := ex - (scale : Int)
  if 0 ≤ e then decide (b ≤ mant * 10 ^ e.toNat)
  else decide (b * 10 ^ (-e).toNat ≤ mant)

/-- Truncation toward zero of the exact decimal
`(-1)^neg * mant * 10^(ex - scale)`. -/
def truncParts (neg : Bool) (mant scale : Nat) (ex : Int) : Int :=
  let e : Int := ex - (scale : Int)
  let mag : Nat :=
    if 0 ≤ e then mant * 10 ^ e.toNat else mant / 10 ^ (-e).toNat
  if neg then -(mag : Int) else (mag : Int)

/-- Model of Python `int(float(s))`: `none` when either conversion
raises (unparseable text, NaN, or an infinite/overflowing value). -/
def intFloat (s : String) : Option Int :=
  match pyFloatParse s with
  | some (.finite neg mant scale ex) =>
    if magGE mant scale ex ovfBound then none
    else some (truncParts neg mant scale ex)
  | _ => none

/-! ## Model of Python `json.loads`

`parse_genres` feeds its quote-normalised cell text to `json.loads` and
keeps the result only when it is a list.  We model the JSON values the
loader can produce and a recursive-descent parser for them.  Numbers are
kept as their lexeme (Python would convert them to `int`/`float`; only
the string rendering of elements matters downstream, and no claim
involves numeric elements).  The parser is fuelled; the fuel supplied by
`jsonLoads` is large enough for every input because each two levels of
recursion consume at least one character. -/

inductive JVal where
  | null : JVal
  | bool (b : Bool) : JVal
  | num (lex : String) : JVal
  | str (s : String) : JVal
  | arr (xs : List JVal) : JVal
  | obj (kvs : List (String × JVal)) : JVal

/-- The double quote character. -/
def dq : Char := Char.ofNat 34

/-- The single quote (apostrophe) character. -/
def sq : Char := Char.ofNat 39

/-- The opening brace character. -/
def lbr : Char := Char.ofNat 123

/-- The closing brace character. -/
def rbr : Char := Char.ofNat 125

/-- JSON insignificant whitespace (space, tab, newline, carriage
return). -/
def jWsDrop (cs : List Char) : List Char :=
  cs.dropWhile fun c => c = ' ' || c = Char.ofNat 9 || c = Char.ofNat 10 || c = Char.ofNat 13

/-- Value of a hexadecimal digit. -/
def hexVal (c : Char) : Option Nat :=
  if '0' ≤ c ∧ c ≤ '9' then some (c.toNat - 48)
  else if 'a' ≤ c ∧ c ≤ 'f' then some (c.toNat - 87)
  else if 'A' ≤ c ∧ c ≤ 'F' then some (c.toNat - 55)
  else none

/-- Translation of a single-character JSON string escape. -/
def escChar (c : Char) : Option Char :=
  if c = dq then some dq
  else if c = '\\' then some '\\'
  else if c = '/' then some '/'
  else if c = 'b' then some (Char.ofNat 8)
  else if c = 'f' then some (Char.ofNat 12)
  else if c = 'n' then some (Char.ofNat 10)
  else if c = 'r' then some (Char.ofNat 13)
  else if c = 't' then some (Char.ofNat 9)
  else none

/-- Parse the body of a JSON string after the opening quote; returns the
decoded characters and the input after the closing quote.  Fuelled by
the input length (one unit is spent per consumed character, so a fuel of
`length + 1` behaves like the unfuelled parser). -/
def jStrBody : Nat → List Char → Option (List Char × List Char)
  | 0, _ => none
  | _ + 1, [] => none
  | fuel + 1, c :: cs =>
    if c = dq then some ([], cs)
    else if c = '\\' then
      match cs with
      | [] => none
      | e :: cs' =>
        if e = 'u' then
          match cs' with
          | a :: b :: d :: f :: cs'' =>
            match hexVal a, hexVal b, hexVal d, hexVal f with
            | some ha, some hb, some hd, some hf =>
              (jStrBody fuel cs'').map fun p =>
                (Char.ofNat (((ha * 16 + hb) * 16 + hd) * 16 + hf) :: p.1, p.2)
            | _, _, _, _ => none
          | _ => none
        else
          match escChar e with
          | some r => (jStrBody fuel cs').map fun p => (r :: p.1, p.2)
          | none => none
    else if c.toNat < 32 then none
    else (jStrBody fuel cs).map fun p => (c :: p.1, p.2)

/-- Contiguous decimal digits and the rest of the input. -/
def spanDigits (cs : List Char) : List Char × List Char :=
  cs.span Char.isDigit

/-- Parse the optional exponent part of a JSON number, extending the
lexeme `lex`. -/
def jNumExp (lex : List Char) (cs : List Char) : Option (List Char × List Char) :=
  match cs with
  | c :: r =>
    if c = 'e' ∨ c = 'E' then
      let (sgn, r1) :=
        match r with
        | s :: r' => if s = '+' ∨ s = '-' then ([s], r') else (([] : List Char), r)
        | [] => (([] : List Char), ([] : List Char))
      let (ds, r2) := spanDigits r1
      if ds = [] then none else some (lex ++ c :: sgn ++ ds, r2)
    else some (lex, cs)
  | [] => some (lex, cs)

/-- Parse the optional fraction part, then the exponent. -/
def jNumFrac (lex : List Char) (cs : List Char) : Option (List Char × List Char) :=
  match cs with
  | c :: r =>
    if c = '.' then
      let (ds, r') := spanDigits r
      if ds = [] then none else jNumExp (lex ++ c :: ds) r'
    else jNumExp lex cs
  | [] => jNumExp lex cs

/-- Parse a JSON number lexeme (strict JSON grammar: no leading zeros,
no leading `+`). -/
def jNumLex (cs : List Char) : Option (List Char × List Char) :=
  let (sgn, cs1) :=
    match cs with
    | c :: r => if c = '-' then ([c], r) else (([] : List Char), cs)
    | [] => (([] : List Char), ([] : List Char))
  match cs1 with
  | [] => none
  | c :: r =>
    if c = '0' then jNumFrac (sgn ++ [c]) r
    else if c.isDigit then
      let (ds, r') := spanDigits r
      jNumFrac (sgn ++ c :: ds) r'
    else none

/-- Does `cs` start with the literal `kw`?  Returns the rest. -/
def matchLit : List Char → List Char → Option (List Char)
  | [], cs => some cs
  | _ :: _, [] => none
  | k :: ks, c :: cs => if c = k then matchLit ks cs else none

mutual

/-- Parse one JSON value.  Mirrors Python's `json.loads` grammar,
including the non-strict constants `NaN`, `Infinity` and `-Infinity`
that the Python decoder accepts by default. -/
def parseJVal : Nat → List Char → Option (JVal × List Char)
  | 0, _ => none
  | fuel + 1, cs0 =>
    let cs := jWsDrop cs0
    match cs with
    | [] => none
    | c :: rest =>
      if c = dq then
        (jStrBody (rest.length + 1) rest).map fun p => (JVal.str (String.mk p.1), p.2)
      else if c = '[' then parseJArr fuel (jWsDrop rest)
      else if c = lbr then parseJObj fuel (jWsDrop rest)
      else
        match matchLit "true".data cs with
        | some r => some (JVal.bool true, r)
        | none =>
          match matchLit "false".data cs with
          | some r => some (JVal.bool false, r)
          | none =>
            match matchLit "null".data cs with
            | some r => some (JVal.null, r)
            | none =>
              match matchLit "NaN".data cs with
              | some r => some (JVal.num "nan", r)
              | none =>
                match matchLit "Infinity".data cs with
                | some r => some (JVal.num "inf", r)
                | none =>
                  match matchLit "-Infinity".data cs with
                  | some r => some (JVal.num "-inf", r)
                  | none =>
                    (jNumLex cs).map fun p => (JVal.num (String.mk p.1), p.2)

/-- Parse the items of a JSON array, positioned just after `[` (with
whitespace dropped): either a closing bracket or a first item. -/
def parseJArr : Nat → List Char → Option (JVal × List Char)
  | 0, _ => none
  | fuel + 1, cs =>
    match cs with
    | [] => none
    | c :: rest =>
      if c = ']' then some (JVal.arr [], rest)
      else
        match parseJVal fuel cs with
        | some (v, r) => parseJArrRest fuel [v] r
        | none => none

/-- Parse the continuation of a JSON array after an item: a comma and
another item, or the closing bracket.  `acc` holds the items parsed so
far, in reverse. -/
def parseJArrRest : Nat → List JVal → List Char → Option (JVal × List Char)
  | 0, _, _ => none
  | fuel + 1, acc, cs =>
    match jWsDrop cs with
    | [] => none
    | c :: rest =>
      if c = ']' then some (JVal.arr acc.reverse, rest)
      else if c = ',' then
        match parseJVal fuel rest with
        | some (v, r) => parseJArrRest fuel (v :: acc) r
        | none => none
      else none

/-- Parse one `"key": value` pair of a JSON object. -/
def parseJPair : Nat → List Char → Option ((String × JVal) × List Char)
  | 0, _ => none
  | fuel + 1, cs =>
    match jWsDrop cs with
    | [] => none
    | c :: rest =>
      if c = dq then
        match jStrBody (rest.length + 1) rest with
        | some (k, r1) =>
          match jWsDrop r1 with
          | ':' :: r2 =>
            match parseJVal fuel r2 with
            | some (v, r3) => some ((String.mk k, v), r3)
            | none => none
          | _ => none
        | none => none
      else none

/-- Parse the members of a JSON object, positioned just after the
opening brace (with whitespace dropped). -/
def parseJObj : Nat → List Char → Option (JVal × List Char)
  | 0, _ => none
  | fuel + 1, cs =>
    match cs with
    | [] => none
    | c :: _ =>
      if c = rbr then some (JVal.obj [], cs.tail)
      else
        match parseJPair fuel cs with
        | some (kv, r) => parseJObjRest fuel [kv] r
        | none => none

/-- Parse the continuation of a JSON object after a member. -/
def parseJObjRest : Nat → List (String × JVal) → List Char → Option (JVal × List Char)
  | 0, _, _ => none
  | fuel + 1, acc, cs =>
    match jWsDrop cs with
    | [] => none
    | c :: rest =>
      if c = rbr then some (JVal.obj acc.reverse, rest)
      else if c = ',' then
        match parseJPair fuel rest with
        | some (kv, r) => parseJObjRest fuel (kv :: acc) r
        | none => none
      else none

end

/-- Model of Python `json.loads(s)`: parse one value and require that
only whitespace remains.  `none` when the decoder raises. -/
def jsonLoads (s : String) : Option JVal :=
  match parseJVal (2 * s.data.length + 16) s.data with
  | some (v, rest) => if jWsDrop rest = [] then some v else none
  | none => none

/-! ## Python `str()` of a loaded JSON value

`parse_genres` applies `str(x)` to each list element.  For strings this
is the string itself; for other values Python renders the object.  (For
floats Python would use the canonical `repr`; we keep the stored lexeme.
No claim involves non-string elements.) -/

/-- Join rendered fragments with `", "`, as Python container `repr`
does. -/
def joinComma : List String → String
  | [] => ""
  | [x] => x
  | x :: xs => x ++ ", " ++ joinComma xs

mutual

/-- Python `repr()` of a loaded JSON value (used inside containers). -/
def pyRepr : JVal → String
  | .null => "None"
  | .bool true => "True"
  | .bool false => "False"
  | .num lex => lex
  | .str s => String.mk (sq :: s.data) ++ String.mk [sq]
  | .arr xs => "[" ++ joinComma (pyReprList xs) ++ "]"
  | .obj kvs => String.mk [lbr] ++ joinComma (pyReprPairs kvs) ++ String.mk [rbr]

/-- `repr` of each element of a list of JSON values. -/
def pyReprList : List JVal → List String
  | [] => []
  | v :: vs => pyRepr v :: pyReprList vs

/-- `repr` of each member of a JSON object. -/
def pyReprPairs : List (String × JVal) → List String
  | [] => []
  | (k, v) :: kvs =>
    (String.mk (sq :: k.data) ++ String.mk [sq] ++ ": " ++ pyRepr v) :: pyReprPairs kvs

end

/-- Python `str(x)` of a loaded JSON value: identity on strings,
`repr`-rendering otherwise. -/
def pyStr : JVal → String
  | .str s => s
  | v => pyRepr v

/-! ## Parsing helpers of `src/utils/import.py` -/

/-- The character class of the fallback regex
`[A-Za-z0-9\s\-]+` in `parse_genres`. -/
def isGenreChar (c : Char) : Bool :=
  ('A' ≤ c && c ≤ 'Z') || ('a' ≤ c && c ≤ 'z') || ('0' ≤ c && c ≤ '9') ||
  isPyWs c || c = '-'

/-- Split a character list into the maximal runs of characters
satisfying `p`, as `re.findall` with pattern `[class]+` does.  `cur`
accumulates the current run in reverse. -/
def runsAux (p : Char → Bool) : List Char → List Char → List (List Char)
  | [], cur => if cur.isEmpty then [] else [cur.reverse]
  | c :: cs, cur =>
    if p c then runsAux p cs (c :: cur)
    else if cur.isEmpty then runsAux p cs []
    else cur.reverse :: runsAux p cs []

/-- All maximal runs of characters of `s` satisfying `p`, in order:
the model of `re.findall(r"[class]+", s)`. -/
def regexRuns (p : Char → Bool) (s : String) : List String :=
  (runsAux p s.data []).map String.mk

/-- The first maximal run of decimal digits of `s`: the model of
`re.search(r"\d+", s)`. -/
def firstDigitRun (s : String) : Option String :=
  (runsAux Char.isDigit s.data []).head?.map String.mk

/-- Strip every element and drop the empties: the list comprehension
`[f.strip() for f in found if f.strip()]` shared by both branches of
`parse_genres`. -/
def stripClean (l : List String) : List String :=
  (l.map pyStrip).filter fun x => x ≠ ""

/-- Does `s` both start and end with a double quote (Python
`s.startswith('"') and s.endswith('"')`; true for the single character
`"` as well)? -/
def wrappedInDq (s : String) : Bool :=
  match s.data with
  | [] => false
  | c :: cs =>
    c = dq && (match (c :: cs).getLast? with | some d => d = dq | none => false)

/-- Python `s[1:-1]`: drop the first and last character. -/
def dropEnds (s : String) : String :=
  String.mk (s.data.drop 1).dropLast

/-- The two data-producing branches of `parse_genres`, applied to the
normalised, quote-stripped text `s`: turn single quotes into double
quotes and try `json.loads`; when that yields a list, return the
stripped, non-empty element strings; otherwise fall back to the regex
`[A-Za-z0-9\s\-]+` over `s`. -/
def parseGenresCore (s : String) : List String :=
  match jsonLoads (pyReplaceChar sq dq s) with
  | some (.arr xs) => stripClean (xs.map pyStr)
  | _ => stripClean (regexRuns isGenreChar s)

/-- `parse_genres` after normalisation: empty text and the literal `[]`
yield the empty list; otherwise one layer of wrapping double quotes is
removed (re-stripping) and the core branches run. -/
def parseGenresNorm (s : String) : List String :=
  if s = "" ∨ s = "[]" then []
  else parseGenresCore (if wrappedInDq s then pyStrip (dropEnds s) else s)

/-- Embedding of `parse_genres` (src/utils/import.py, lines 28-55):
falsy input yields the empty list; otherwise line breaks collapse to
spaces, outer whitespace is stripped, and `parseGenresNorm` runs. -/
def parse_genres (raw : String) : List String :=
  if raw = "" then []
  else parseGenresNorm (pyStrip (pyReplaceChar (Char.ofNat 10) ' ' raw))

/-- Embedding of `parse_episodes` (src/utils/import.py, lines 59-66):
empty text is absent; otherwise `int(float(raw))`, falling back to the
first contiguous run of digits; `none` when both fail. -/
def parse_episodes (raw : String) : Option Int :=
  if raw = "" then none
  else
    match intFloat raw with
    | some n => some n
    | none => (firstDigitRun raw).map fun ds => (natOfDigits ds.data : Int)

/-- Embedding of `parse_score` (src/utils/import.py, lines 69-75):
empty text is absent; otherwise `float(raw)`, with any parse failure
yielding absence (no fallback). -/
def parse_score (raw : String) : Option PyFloat :=
  if raw = "" then none else pyFloatParse raw

/-! ## The SQLite store of `import.py`

The three tables created by `create_schema` are modelled as lists of
rows plus the `AUTOINCREMENT` counters.  `INSERT OR IGNORE` into
`Genres` (unique `name`, BINARY collation, hence case-sensitive) and
into `AnimeGenres` (composite primary key) become insert-if-absent. -/

/-- One row of the `Anime` table. -/
structure AnimeRow where
  id : Nat
  mal_id : Int
  image : String
  title : String
  release_date : String
  synopsis : String
  score : Option PyFloat
  episodes : Option Int
  studio : String
  theme : String
deriving DecidableEq, Repr

/-- The state of the target store: the three tables and the next
surrogate keys. -/
structure DB where
  anime : List AnimeRow
  genres : List (Nat × String)
  links : List (Nat × Nat)
  nextAnime : Nat
  nextGenre : Nat
deriving DecidableEq, Repr

/-- The store right after `create_schema` ran (src/utils/import.py,
lines 80-113): the three tables dropped and recreated empty, surrogate
keys starting at 1. -/
def freshSchema : DB :=
  { anime := [], genres := [], links := [], nextAnime := 1, nextGenre := 1 }

/-- The field values bound by `insert_anime_sql` (everything of an
`Anime` row except the surrogate key). -/
structure AnimeArgs where
  mal_id : Int
  image : String
  title : String
  release_date : String
  synopsis : String
  score : Option PyFloat
  episodes : Option Int
  studio : String
  theme : String
deriving DecidableEq, Repr

/-- `cur.execute(insert_anime_sql, ...)`: append a row with the next
surrogate key; returns the new store and `cur.lastrowid`. -/
def insertAnime (db : DB) (a : AnimeArgs) : DB × Nat :=
  let rid := db.nextAnime
  ({ db with
      anime := db.anime ++ [⟨rid, a.mal_id, a.image, a.title, a.release_date,
        a.synopsis, a.score, a.episodes, a.studio, a.theme⟩],
      nextAnime := rid + 1 }, rid)

/-- `INSERT OR IGNORE INTO Genres (name) VALUES (?)`: a no-op when a row
with the same (case-sensitive) name exists, an append otherwise. -/
def insertGenre (db : DB) (name : String) : DB :=
  if db.genres.any fun p => p.2 = name then db
  else { db with
    genres := db.genres ++ [(db.nextGenre, name)],
    nextGenre := db.nextGenre + 1 }

/-- `SELECT genre_id FROM Genres WHERE name = ?` followed by
`fetchone`. -/
def selectGenre (db : DB) (name : String) : Option Nat :=
  (db.genres.find? fun p => p.2 = name).map Prod.fst

/-- `INSERT OR IGNORE INTO AnimeGenres (anime_id, genre_id)`: a no-op on
a duplicate composite key. -/
def insertLink (db : DB) (aid gid : Nat) : DB :=
  if (aid, gid) ∈ db.links then db
  else { db with links := db.links ++ [(aid, gid)] }

/-! ## The import driver of `import.py`

Exceptions raised by the driver while one row is processed (the claims
mention constraint violations and failures during linking; with this
schema they can only come from the database layer, e.g. a locked or
full database) are modelled by a budget oracle `exc : Nat → Option Nat`:
`exc i = some k` means that while row `i` is processed the `(k+1)`-th
`cur.execute` call raises, so exactly `k` calls took effect;
`exc i = none` means row `i` raises nothing. -/

/-- Spend one unit of exception budget: `(false, _)` means this
`cur.execute` call raises. -/
def consume : Option Nat → Bool × Option Nat
  | none => (true, none)
  | some 0 => (false, some 0)
  | some (k + 1) => (true, some k)

/-- Process the genre list of one row (src/utils/import.py, lines
183-190): for each genre insert-if-absent, look up its id, and link it
to the new record.  Returns the store, the remaining budget, and
whether the loop completed without an exception. -/
def processGenres (aid : Nat) : DB → List String → Option Nat → DB × Option Nat × Bool
  | db, [], b => (db, b, true)
  | db, g :: rest, b =>
    match consume b with
    | (false, b') => (db, b', false)
    | (true, b1) =>
      let db1 := insertGenre db g
      match consume b1 with
      | (false, b') => (db1, b', false)
      | (true, b2) =>
        match selectGenre db1 g with
        | none => processGenres aid db1 rest b2
        | some gid =>
          match consume b2 with
          | (false, b') => (db1, b', false)
          | (true, b3) => processGenres aid (insertLink db1 aid gid) rest b3

/-- The console messages of the driver that concern rows: the per-row
skip report, the periodic progress report, and the final summary. -/
inductive Msg where
  | rowSkipped (i : Nat) : Msg
  | progress (n : Nat) : Msg
  | complete (n : Nat) : Msg
deriving DecidableEq, Repr

/-- The mutable state of the row loop: the store seen by the open
transaction, the last committed store, the count of fully inserted
rows, and the log (most recent message first). -/
structure RunSt where
  cur : DB
  committed : DB
  inserted : Nat
  log : List Msg
deriving DecidableEq, Repr

/-! ### Header resolution (`field_map` and `g`) -/

/-- `field_map = {h.strip().lower(): h for h in reader.fieldnames if h}`:
the association list of the dict comprehension, in insertion order. -/
def fieldMapL (header : List String) : List (String × String) :=
  (header.filter fun h => h ≠ "").map fun h => (pyLower (pyStrip h), h)

/-- Python dict lookup over an insertion-ordered association list: the
last binding of a key wins. -/
def pyDictGet (l : List (String × String)) (k : String) : Option String :=
  (l.reverse.find? fun p => p.1 = k).map Prod.snd

/-- The index at which `DictReader` stores the value of column name
`key`: with duplicated header names the later column wins. -/
def lastIdxOf (header : List String) (key : String) : Option Nat :=
  match header.reverse.findIdx? fun h => h = key with
  | some j => some (header.length - 1 - j)
  | none => none

/-- `row.get(k) or ""` for a `csv.DictReader` row: the value at the
column named `k`, the empty string when the row is short (`restval
None`) or the value itself is empty. -/
def rowGet (header vals : List String) (key : String) : String :=
  match lastIdxOf header key with
  | some j => (vals.get? j).getD ""
  | none => ""

/-- The helper `g(row, *possible_keys)` (src/utils/import.py, lines
149-154): the first synonym found in `field_map` (case-insensitively)
selects the column; a row value of `None` or a missing synonym yields
the empty string. -/
def g (header vals : List String) : List String → String
  | [] => ""
  | k :: ks =>
    match pyDictGet (fieldMapL header) (pyLower k) with
    | some orig => if orig = "" then g header vals ks else rowGet header vals orig
    | none => g header vals ks

/-- The bound arguments of `insert_anime_sql` for one row
(src/utils/import.py, lines 168-178). -/
def mkAnimeArgs (header vals : List String) (mid : Int) : AnimeArgs :=
  { mal_id := mid,
    image := g header vals ["image"],
    title := g header vals ["title", "name"],
    release_date := g header vals ["release", "release_date", "aired"],
    synopsis := g header vals ["synopsis", "description"],
    score := parse_score (g header vals ["score", "rating"]),
    episodes := parse_episodes (g header vals ["episodes", "eps"]),
    studio := g header vals ["studio", "studios"],
    theme := g header vals ["theme", "themes"] }

/-- The body of the `try` block for a row whose external id `mid`
parsed (src/utils/import.py, lines 166-199), with exception budget
`b0`: insert the record, then its genres and links.  On success the
inserted count rises and every 500th success commits and reports
progress; an exception anywhere leaves the store operations already
performed in place (there is no rollback), logs `Row i skipped`, and
keeps the inserted count. -/
def tryRow (header : List String) (st : RunSt) (i : Nat)
    (vals : List String) (mid : Int) (b0 : Option Nat) : RunSt :=
  match consume b0 with
  | (false, _) => { st with log := Msg.rowSkipped i :: st.log }
  | (true, b1) =>
    match insertAnime st.cur (mkAnimeArgs header vals mid) with
    | (db1, aid) =>
      match processGenres aid db1 (parse_genres (g header vals ["genre", "genres"])) b1 with
      | (db2, _, ok) =>
        if ok then
          if (st.inserted + 1) % 500 = 0 then
            { cur := db2, committed := db2, inserted := st.inserted + 1,
              log := Msg.progress (st.inserted + 1) :: st.log }
          else { st with cur := db2, inserted := st.inserted + 1 }
        else { st with cur := db2, log := Msg.rowSkipped i :: st.log }

/-- Process one data row `i` (1-based, as `enumerate(reader, start=1)`)
of the import loop (src/utils/import.py, lines 156-199): a blank or
unparseable external id silently skips the row (`continue` without a
message); otherwise the `try` body `tryRow` runs. -/
def doRow (header : List String) (exc : Nat → Option Nat) (st : RunSt)
    (i : Nat) (vals : List String) : RunSt :=
  if pyStrip (g header vals ["mal_id", "mal id", "id"]) = "" then st
  else
    match intFloat (pyStrip (g header vals ["mal_id", "mal id", "id"])) with
    | none => st
    | some mid => tryRow header st i vals mid (exc i)

/-- Fold `doRow` over the data rows, numbering them from `i`. -/
def runRows (header : List String) (exc : Nat → Option Nat) :
    RunSt → Nat → List (List String) → RunSt
  | st, _, [] => st
  | st, i, v :: rest => runRows header exc (doRow header exc st i v) (i + 1) rest

/-- The observable outcome of one invocation of `import_csv_to_db`:
the persisted store (after the last commit), the log, and whether the
run died with an uncaught exception. -/
structure RunOut where
  committed : DB
  log : List Msg
  aborted : Bool
deriving DecidableEq, Repr

set_option linter.unusedVariables false in
/-- Embedding of `import_csv_to_db` (src/utils/import.py, lines
118-205).  `store` is the pre-existing content of the target database
file (`none` when the file does not exist); `csv` is the parsed input
file: `none` when it is missing/unreadable, `some []` when it has no
rows at all (no header), and `some (header :: rows)` otherwise.

The function connects, drops and recreates the schema, and commits —
all before the CSV file is opened, so the fresh empty schema is
persisted even when opening or reading the CSV then raises (the
`TypeError` on a `None` `fieldnames` for a headerless file, or the
`FileNotFoundError`/`OSError` for a missing/unreadable one), in which
case the run aborts.  Otherwise the rows are processed, a final commit
runs, and the row count is reported. -/
def import_csv_to_db (store : Option DB) (csv : Option (List (List String)))
    (exc : Nat → Option Nat) : RunOut :=
  -- `sqlite3.connect`, `create_schema(cur)`, `conn.commit()`: the
  -- pre-existing `store` is destroyed unconditionally.
  match csv with
  | none => { committed := freshSchema, log := [], aborted := true }
  | some [] => { committed := freshSchema, log := [], aborted := true }
  | some (header :: rows) =>
    let st := runRows header exc
      { cur := freshSchema, committed := freshSchema, inserted := 0, log := [] } 1 rows
    { committed := st.cur,
      log := Msg.complete st.cur.anime.length :: st.log,
      aborted := false }

/-! ## The image enricher (`src/utils/add-images.py`)

Only the parts the claims are about are embedded: the derivation of the
output path from the input path (`main`, line 97) and the per-row
resume-or-fetch decision (`main`, lines 138-159). -/

/-- A `pathlib.Path`: the leading components and the final component
(`name`). -/
structure PyPath where
  parts : List String
  name : String
deriving DecidableEq, Repr

/-- The index `name.rfind('.')` when the dot exists. -/
def rfindDot (cs : List Char) : Option Nat :=
  match cs.reverse.findIdx? fun c => c = '.' with
  | some j => some (cs.length - 1 - j)
  | none => none

/-- `pathlib.PurePath.stem`: the final component without its suffix
(the part of the name before the last dot, when that dot is neither
leading nor trailing). -/
def pyStem (name : String) : String :=
  match rfindDot name.data with
  | some i => if 0 < i ∧ i < name.data.length - 1 then String.mk (name.data.take i) else name
  | none => name

/-- `pathlib.PurePath.suffix`: the extension of the final component. -/
def pySuffix (name : String) : String :=
  match rfindDot name.data with
  | some i => if 0 < i ∧ i < name.data.length - 1 then String.mk (name.data.drop i) else ""
  | none => ""

/-- `Path.with_name`: replace the final component. -/
def withName (p : PyPath) (n : String) : PyPath := { p with name := n }

/-- The enricher's derived output path
`in_path.with_name(in_path.stem + in_path.suffix)`
(src/utils/add-images.py, line 97).  It is also the path whose prior
content is loaded for resumption (line 114) and the target that the
temporary file replaces on completion (line 166). -/
def outPath (inPath : PyPath) : PyPath :=
  withName inPath (pyStem inPath.name ++ pySuffix inPath.name)

/-- The `already_done` dictionary loaded from the existing output file
(src/utils/add-images.py, lines 113-121): for every row whose `MAL_ID`
cell is non-empty, its `image` cell (`row.get("image")`, which is `none`
when the column is missing).  Later rows overwrite earlier ones. -/
def buildDone (rows : List (String × Option String)) : List (String × Option String) :=
  rows.filter fun r => r.1 ≠ ""

/-- Python dict lookup on the insertion-ordered `already_done` list. -/
def doneGet (d : List (String × Option String)) (k : String) : Option (Option String) :=
  (d.reverse.find? fun p => p.1 = k).map Prod.snd

/-- The per-row resume-or-fetch decision of the enricher loop
(src/utils/add-images.py, lines 138-159).  `fetchRes mid` is the value
`fetch_image_url(mid, session)` would return.  The result is the value
written to the `image` cell of the output row, paired with whether
`fetch_image_url` was invoked. -/
def enrichRow (done : List (String × Option String))
    (fetchRes : String → Option String) (malRaw : String) : String × Bool :=
  let mal_id := pyStrip malRaw
  let image0 : Option String := (doneGet done mal_id).getD none
  match image0 with
  | some s =>
    if s = "" then (((fetchRes mal_id).getD ""), true)
    else (s, false)
  | none => (((fetchRes mal_id).getD ""), true)

/-! ## Definitions used only inside theorem statements -/

/-- The episode-count coercion algorithm as the spec words it
(section 4.2): parse as a real number and truncate to integer; if that
fails, parse the first contiguous run of digits of the raw text; if
that also fails, the field is absent.  Stated for comparison with the
code's `parse_episodes`. -/
def episodeCoercionSpec (raw : String) : Option Int :=
  match intFloat raw with
  | some n => some n
  | none => (firstDigitRun raw).map fun ds => (natOfDigits ds.data : Int)

/-- The number of `cur.execute` calls the driver makes for one row that
passes external-id validation: the record insert plus three calls per
parsed genre. -/
def opsFor (header vals : List String) : Nat :=
  1 + 3 * (parse_genres (g header vals ["genre", "genres"])).length

/-- The names column of the `Genres` table. -/
def genreNames (db : DB) : List String := db.genres.map Prod.snd

/-! ## Evaluation of the embedding on concrete inputs -/

example : intFloat "12" = some 12 := by decide
example : intFloat "12.0" = some 12 := by decide
example : intFloat "12 eps" = none := by decide
example : intFloat "unknown" = none := by decide
example : intFloat "  -3.75 " = some (-3) := by decide
example : intFloat "1e3" = some 1000 := by decide
example : intFloat "inf" = none := by decide
example : intFloat "nan" = none := by decide
example : intFloat "" = none := by decide
example : intFloat "1_2" = some 12 := by decide
example : intFloat "1_" = none := by decide

example : jsonLoads "[\"Action\", \"Comedy\"]" =
    some (JVal.arr [JVal.str "Action", JVal.str "Comedy"]) := rfl
example : jsonLoads "Action, Comedy" = none := rfl
example : jsonLoads "[]" = some (JVal.arr []) := rfl
example : jsonLoads "" = none := rfl
example : jsonLoads "[1, -2.5e3, true, null]" =
    some (JVal.arr [JVal.num "1", JVal.num "-2.5e3", JVal.bool true, JVal.null]) := rfl

example : regexRuns isGenreChar "Action, Comedy" = ["Action", " Comedy"] := by decide
example : firstDigitRun "ab12cd34" = some "12" := by decide
example : firstDigitRun "abc" = none := by decide

example : parse_genres "['Action', 'Comedy']" = ["Action", "Comedy"] := rfl
example : parse_genres "Action, Comedy" = ["Action", "Comedy"] := rfl
example : parse_genres "" = [] := rfl
example : parse_genres "[]" = [] := rfl
example : parse_genres "\"['Action']\"" = ["Action"] := rfl

example : parse_episodes "12" = some 12 := by decide
example : parse_episodes "12.0" = some 12 := by decide
example : parse_episodes "12 eps" = some 12 := by decide
example : parse_episodes "unknown" = none := by decide

example : parse_score "8.5" = some (.finite false 85 1 0) := by decide
example : parse_score "N/A" = none := by decide

-- The end-to-end scenario of the spec (section 8): ids 1, 2, blank with
-- genre cells ['Action'], ['Action','Drama'], ['Comedy'].
example :
    (import_csv_to_db none (some
      [["MAL_ID", "Genre"],
       ["1", "['Action']"],
       ["2", "['Action','Drama']"],
       ["", "['Comedy']"]]) fun _ => none).committed.genres =
    [(1, "Action"), (2, "Drama")] := by decide
example :
    (import_csv_to_db none (some
      [["MAL_ID", "Genre"],
       ["1", "['Action']"],
       ["2", "['Action','Drama']"],
       ["", "['Comedy']"]]) fun _ => none).committed.links =
    [(1, 1), (2, 1), (2, 2)] := by decide
example :
    (import_csv_to_db none (some
      [["MAL_ID", "Genre"],
       ["1", "['Action']"],
       ["2", "['Action','Drama']"],
       ["", "['Comedy']"]]) fun _ => none).log = [Msg.complete 2] := by decide

example : outPath ⟨["data"], "anime.csv"⟩ = ⟨["data"], "anime.csv"⟩ := by decide
example : pyStem "a.tar.gz" = "a.tar" ∧ pySuffix "a.tar.gz" = ".gz" := by decide
example : pyStem ".bashrc" = ".bashrc" ∧ pySuffix ".bashrc" = "" := by decide

example :
    enrichRow (buildDone [("5", some "http://x/5.jpg")]) (fun _ => some "other") "5" =
    ("http://x/5.jpg", false) := by decide
example :
    enrichRow (buildDone [("5", some "")]) (fun _ => some "fresh") "5" =
    ("fresh", true) := by decide
example :
    enrichRow (buildDone []) (fun _ => none) "7" = ("", true) := by decide

/-! ## Helper lemmas -/

/-- `trimL` is idempotent. -/
theorem trimL_idem (l : List Char) : trimL (trimL l) = trimL l := by
  induction l with
  | nil => rfl
  | cons c cs ih =>
    by_cases h : isPyWs c = true
    · simp [trimL, List.dropWhile, h] at ih ⊢
      simpa [trimL] using ih
    · simp [trimL, List.dropWhile, h]

/-- `List.dropWhile` distributes over appending a single element that
fails the predicate. -/
theorem dropWhile_append_singleton (p : Char → Bool) (a : Char)
    (h : p a = false) (m : List Char) :
    (m ++ [a]).dropWhile p = m.dropWhile p ++ [a] := by
  induction m with
  | nil => simp [List.dropWhile, h]
  | cons b bs ih =>
    by_cases hb : p b = true
    · simp [List.dropWhile, hb, ih]
    · simp [List.dropWhile, hb]

/-- The left trim of a list is empty or starts with a non-whitespace
character. -/
theorem trimL_shape (l : List Char) :
    trimL l = [] ∨ ∃ c ys, trimL l = c :: ys ∧ isPyWs c = false := by
  induction l with
  | nil => exact Or.inl rfl
  | cons a as ih =>
    by_cases h : isPyWs a = true
    · simpa [trimL, List.dropWhile, h] using ih
    · exact Or.inr ⟨a, as, by simp [trimL, List.dropWhile, h], by
        simpa using h⟩

/-- Right-trimming a list whose head is not whitespace leaves the head in
place, so left-trimming it afterwards changes nothing. -/
theorem trimL_trimR_of_head (c : Char) (ys : List Char)
    (h : isPyWs c = false) : trimL (trimR (c :: ys)) = trimR (c :: ys) := by
  unfold trimR trimL
  have h1 : (c :: ys).reverse = ys.reverse ++ [c] := by simp
  rw [h1, dropWhile_append_singleton _ _ h]
  simp [List.dropWhile, h]

/-- `trimR` is idempotent. -/
theorem trimR_idem (l : List Char) : trimR (trimR l) = trimR l := by
  unfold trimR
  simp [trimL_idem]

/-- Stripping is idempotent, as for Python's `str.strip()`. -/
theorem pyStrip_idem (s : String) : pyStrip (pyStrip s) = pyStrip s := by
  unfold pyStrip
  congr 1
  show trimR (trimL (trimR (trimL s.data))) = trimR (trimL s.data)
  rcases trimL_shape s.data with h | ⟨c, ys, h, hc⟩
  · rw [h]; rfl
  · rw [h, trimL_trimR_of_head c ys hc, trimR_idem]


/-- A path name is always its stem followed by its suffix. -/
theorem pyStem_append_pySuffix (nm : String) :
    pyStem nm ++ pySuffix nm = nm := by
  unfold pyStem pySuffix
  cases h : rfindDot nm.data with
  | none =>
    simp
  | some i =>
    by_cases hc : 0 < i ∧ i < nm.data.length - 1
    · simp only [hc, if_pos]
      apply String.ext
      simp [String.data_append]
    · have hc' : ¬(0 < i ∧ i < nm.length - 1) := hc
      simp [hc, hc']

/-- Elements produced by the shared strip-and-filter step are non-empty
and already stripped. -/
theorem mem_stripClean {x : String} {l : List String}
    (h : x ∈ stripClean l) : x ≠ "" ∧ pyStrip x = x := by
  unfold stripClean at h
  rw [List.mem_filter] at h
  obtain ⟨hmap, hne⟩ := h
  refine ⟨by simpa using hne, ?_⟩
  obtain ⟨y, _, rfl⟩ := List.mem_map.mp hmap
  exact pyStrip_idem y

/-! ## The claims -/

/-- C3: the Image Enricher's derived output path
`in_path.with_name(in_path.stem + in_path.suffix)` is the input path
itself, so the completed temporary file replaces the original input CSV
and the existing output file consulted for resumption is always the
input file. -/
theorem c3_output_path_is_input_path (p : PyPath) : outPath p = p := by
  unfold outPath withName
  rw [pyStem_append_pySuffix]

/-- C6: the genre list parser satisfies the specified examples:
a Python-style list literal yields its element names, unquoted
comma-separated text yields the same names via the regex fallback, and
empty or `[]` cells yield the empty sequence. -/
theorem c6_genre_parse_examples :
    parse_genres "['Action', 'Comedy']" = ["Action", "Comedy"] ∧
    parse_genres "Action, Comedy" = ["Action", "Comedy"] ∧
    parse_genres "" = [] ∧
    parse_genres "[]" = [] :=
  ⟨rfl, rfl, rfl, rfl⟩

/-- C7: link insertion is idempotent: a second insert of the same
`(anime_id, genre_id)` pair is a no-op, and starting from a store
without the pair, inserting it twice leaves exactly one copy in
`AnimeGenres`. -/
theorem c7_link_insert_idempotent (db : DB) (aid gid : Nat) :
    insertLink (insertLink db aid gid) aid gid = insertLink db aid gid ∧
    ((aid, gid) ∉ db.links →
      (insertLink (insertLink db aid gid) aid gid).links.count (aid, gid) = 1) := by
  constructor
  · unfold insertLink
    by_cases h : (aid, gid) ∈ db.links
    · simp [h]
    · simp [h]
  · intro h
    unfold insertLink
    simp only [h, if_neg, if_false]
    have hmem : (aid, gid) ∈ db.links ++ [(aid, gid)] := by simp
    simp [hmem, List.count_append, List.count_eq_zero.mpr h]

/-- C7 witness: on the fresh store, inserting the link `(1, 1)` twice
leaves exactly one row. -/
theorem c7_link_insert_idempotent_witness :
    (1, 1) ∉ freshSchema.links ∧
    (insertLink (insertLink freshSchema 1 1) 1 1).links.count (1, 1) = 1 :=
  ⟨by decide, (c7_link_insert_idempotent freshSchema 1 1).2 (by decide)⟩

/-- C8: episode-count coercion follows the specified algorithm on every
input (real-number parse and truncation, then first digit run, then
absent), and satisfies the specified examples. -/
theorem c8_episode_coercion (raw : String) :
    parse_episodes raw = episodeCoercionSpec raw ∧
    parse_episodes "12" = some 12 ∧
    parse_episodes "12.0" = some 12 ∧
    parse_episodes "12 eps" = some 12 ∧
    parse_episodes "unknown" = none := by
  refine ⟨?_, by decide, by decide, by decide, by decide⟩
  unfold parse_episodes episodeCoercionSpec
  by_cases h : raw = ""
  · subst h; decide
  · simp [h]

/-- C9: a row whose (stripped) external id is recorded in the existing
output file with a non-empty image value reuses that value verbatim and
issues no remote lookup. -/
theorem c9_resume_skips_lookup (rows : List (String × Option String))
    (fetchRes : String → Option String) (malRaw v : String)
    (hrec : doneGet (buildDone rows) (pyStrip malRaw) = some (some v))
    (hne : v ≠ "") :
    enrichRow (buildDone rows) fetchRes malRaw = (v, false) := by
  unfold enrichRow
  simp only [hrec, Option.getD]
  simp [hne]

/-- C9 witness: with external id `5` recorded as `http://x/5.jpg`, the
re-run reuses the value and fetches nothing for that row. -/
theorem c9_resume_skips_lookup_witness :
    doneGet (buildDone [("5", some "http://x/5.jpg")]) (pyStrip "5") =
      some (some "http://x/5.jpg") ∧
    enrichRow (buildDone [("5", some "http://x/5.jpg")]) (fun _ => some "other") "5" =
      ("http://x/5.jpg", false) :=
  ⟨by decide,
    c9_resume_skips_lookup [("5", some "http://x/5.jpg")] (fun _ => some "other")
      "5" "http://x/5.jpg" (by decide) (by decide)⟩

/-- C10: every element returned by the genre list parser, on any input
and in either branch, is a non-empty string equal to its own
whitespace-stripped form. -/
theorem c10_genre_elements_clean (raw x : String)
    (hx : x ∈ parse_genres raw) : x ≠ "" ∧ pyStrip x = x := by
  unfold parse_genres at hx
  split at hx
  · simp at hx
  · unfold parseGenresNorm at hx
    split at hx
    · simp at hx
    · unfold parseGenresCore at hx
      split at hx
      · exact mem_stripClean hx
      · exact mem_stripClean hx

/-- C10 witness: on the literal `['Action', ' Comedy ']` the parser
returns stripped non-empty names; instantiated at the first element. -/
theorem c10_genre_elements_clean_witness :
    "Action" ∈ parse_genres "['Action', ' Comedy ']" ∧
    ("Action" ≠ "" ∧ pyStrip "Action" = "Action") :=
  ⟨by decide, c10_genre_elements_clean "['Action', ' Comedy ']" "Action" (by decide)⟩

/-! ### Preservation of genre-name uniqueness (for C5) -/

/-- Inserting an anime row does not change the `Genres` table. -/
theorem genres_insertAnime (db : DB) (a : AnimeArgs) :
    ((insertAnime db a).1).genres = db.genres := rfl

/-- Inserting a link does not change the `Genres` table. -/
theorem genres_insertLink (db : DB) (aid gid : Nat) :
    (insertLink db aid gid).genres = db.genres := by
  unfold insertLink
  split <;> rfl

/-- Insert-if-absent keeps the genre names free of duplicates. -/
theorem nodup_insertGenre {db : DB} (h : (genreNames db).Nodup) (gname : String) :
    (genreNames (insertGenre db gname)).Nodup := by
  unfold insertGenre
  cases hmem : db.genres.any fun p => p.2 = gname with
  | true => simpa [hmem] using h
  | false =>
    have hnotin : gname ∉ genreNames db := by
      intro hin
      obtain ⟨p, hp, hp2⟩ := List.mem_map.mp hin
      have hany : db.genres.any (fun p => p.2 = gname) = true :=
        List.any_eq_true.mpr ⟨p, hp, by simp [hp2]⟩
      rw [hmem] at hany
      exact Bool.false_ne_true hany
    simp only [Bool.false_eq_true, if_false]
    show ((db.genres ++ [(db.nextGenre, gname)]).map Prod.snd).Nodup
    rw [List.map_append, List.nodup_append]
    refine ⟨h, by simp, ?_⟩
    intro a ha hb
    simp only [List.map_cons, List.map_nil, List.mem_singleton] at hb
    subst hb
    exact hnotin ha

/-- The genre loop of one row keeps the genre names free of
duplicates. -/
theorem nodup_processGenres (aid : Nat) :
    ∀ (gs : List String) (db : DB) (b : Option Nat),
      (genreNames db).Nodup → (genreNames (processGenres aid db gs b).1).Nodup := by
  intro gs
  induction gs with
  | nil => intro db b h; exact h
  | cons gname rest ih =>
    intro db b h
    have h1 : (genreNames (insertGenre db gname)).Nodup := nodup_insertGenre h gname
    simp only [processGenres]
    split
    · exact h
    · split
      · exact h1
      · split
        · exact ih _ _ h1
        · split
          · exact h1
          · apply ih
            unfold genreNames
            rw [genres_insertLink]
            exact h1

/-- One iteration of the row loop keeps the genre names of the open
transaction free of duplicates. -/
theorem nodup_doRow (header : List String) (exc : Nat → Option Nat)
    (st : RunSt) (i : Nat) (vals : List String)
    (h : (genreNames st.cur).Nodup) :
    (genreNames (doRow header exc st i vals).cur).Nodup := by
  have htry : ∀ (mid : Int) (b0 : Option Nat),
      (genreNames (tryRow header st i vals mid b0).cur).Nodup := by
    intro mid b0
    unfold tryRow
    split
    · exact h
    · rename_i b1 hcb
      split
      rename_i db1 aid hia
      have h1 : (genreNames db1).Nodup := by
        have hg : db1.genres = st.cur.genres := by
          have hins := genres_insertAnime st.cur (mkAnimeArgs header vals mid)
          rw [hia] at hins
          exact hins
        unfold genreNames
        rw [hg]
        exact h
      split
      rename_i db2 b2 ok hpg
      have h2 : (genreNames db2).Nodup := by
        have hnp := nodup_processGenres aid
          (parse_genres (g header vals ["genre", "genres"])) db1 b1 h1
        rw [hpg] at hnp
        exact hnp
      split
      · split
        · exact h2
        · exact h2
      · exact h2
  unfold doRow
  split
  · exact h
  · split
    · exact h
    · apply htry

/-- The whole row loop keeps the genre names of the open transaction
free of duplicates. -/
theorem nodup_runRows (header : List String) (exc : Nat → Option Nat) :
    ∀ (rows : List (List String)) (st : RunSt) (i : Nat),
      (genreNames st.cur).Nodup → (genreNames (runRows header exc st i rows).cur).Nodup := by
  intro rows
  induction rows with
  | nil => intro st i h; simpa [runRows] using h
  | cons v rest ih =>
    intro st i h
    simp only [runRows]
    exact ih _ _ (nodup_doRow header exc st i v h)

/-! ### Exception-budget lemmas (for C2) -/

/-- A successful consume call on a finite budget came from a positive
budget and decremented it. -/
theorem consume_some_true {k : Nat} {b : Option Nat}
    (h : consume (some k) = (true, b)) : ∃ m, k = m + 1 ∧ b = some m := by
  cases k with
  | zero => simp [consume] at h
  | succ m =>
    refine ⟨m, rfl, ?_⟩
    simp [consume] at h
    exact h.symm

/-- Mapping a function over an option does not change whether it is
`some`. -/
theorem isSome_map_fst (o : Option (Nat × String)) :
    (Option.map Prod.fst o).isSome = o.isSome := by
  cases o <;> rfl

/-- After insert-if-absent of a name, looking that name up always finds
a row. -/
theorem selectGenre_insertGenre (db : DB) (gname : String) :
    (selectGenre (insertGenre db gname) gname).isSome = true := by
  unfold selectGenre insertGenre
  cases hmem : db.genres.any fun p => p.2 = gname with
  | true =>
    obtain ⟨p, hp, hp2⟩ := List.any_eq_true.mp hmem
    simp only [if_pos]
    rw [isSome_map_fst]
    exact List.find?_isSome.mpr ⟨p, hp, hp2⟩
  | false =>
    simp only [Bool.false_eq_true, if_false]
    rw [isSome_map_fst]
    refine List.find?_isSome.mpr ⟨(db.nextGenre, gname), by simp, by simp⟩

/-- When the exception budget of a row is smaller than three calls per
genre, the genre loop ends in the exception state. -/
theorem processGenres_budget (aid : Nat) :
    ∀ (gs : List String) (db : DB) (k : Nat), k < 3 * gs.length →
      (processGenres aid db gs (some k)).2.2 = false := by
  intro gs
  induction gs with
  | nil =>
    intro db k h
    simp at h
  | cons gname rest ih =>
    intro db k h
    simp only [processGenres]
    split
    · rfl
    · rename_i b1 hcb1
      obtain ⟨k1, rfl, rfl⟩ := consume_some_true hcb1
      split
      · rfl
      · rename_i b2 hcb2
        obtain ⟨k2, rfl, rfl⟩ := consume_some_true hcb2
        split
        · rename_i hsel
          have hs := selectGenre_insertGenre db gname
          rw [hsel] at hs
          simp at hs
        · split
          · rfl
          · rename_i b3 hcb3
            obtain ⟨k3, rfl, rfl⟩ := consume_some_true hcb3
            apply ih
            simp only [List.length_cons] at h
            omega

/-- When the exception budget of a row with a parsed external id runs
out, the `try` body logs the skip and touches neither the inserted
count nor the committed store (the open transaction, however, keeps the
calls already made). -/
theorem tryRow_exception (header : List String) (st : RunSt) (i : Nat)
    (vals : List String) (mid : Int) (k : Nat)
    (hk : k < opsFor header vals) :
    ((tryRow header st i vals mid (some k)).log,
     (tryRow header st i vals mid (some k)).inserted,
     (tryRow header st i vals mid (some k)).committed) =
    (Msg.rowSkipped i :: st.log, st.inserted, st.committed) := by
  unfold tryRow
  split
  · rfl
  · rename_i b1 hcb1
    obtain ⟨k1, rfl, rfl⟩ := consume_some_true hcb1
    split
    rename_i db1 aid hia
    split
    rename_i db2 b2 ok hpg
    have hok : ok = false := by
      have hb := processGenres_budget aid
        (parse_genres (g header vals ["genre", "genres"])) db1 k1
        (by unfold opsFor at hk; omega)
      rw [hpg] at hb
      exact hb
    subst hok
    simp only [Bool.false_eq_true, if_false]

/-- C1 counterexample: the claim says a run over a missing input file
leaves pre-existing tables and data untouched.  Starting from a store
holding one anime row and importing a missing file, the run aborts but
the persisted store is no longer the pre-existing one — the schema
reset already destroyed it. -/
theorem c1_missing_file_destroys_preexisting_data :
    (import_csv_to_db
      (some { anime := [⟨1, 10, "", "t", "", "", none, none, "", ""⟩],
              genres := [], links := [], nextAnime := 2, nextGenre := 1 })
      none fun _ => none).aborted = true ∧
    (import_csv_to_db
      (some { anime := [⟨1, 10, "", "t", "", "", none, none, "", ""⟩],
              genres := [], links := [], nextAnime := 2, nextGenre := 1 })
      none fun _ => none).committed ≠
      { anime := [⟨1, 10, "", "t", "", "", none, none, "", ""⟩],
        genres := [], links := [], nextAnime := 2, nextGenre := 1 } := by
  exact ⟨rfl, by decide⟩

/-- C1 (amended): when the input CSV file is missing/unreadable or has
no header row, the run aborts before any row is processed (empty log,
no row data written) — but only after the schema has been dropped,
recreated, and committed, so the persisted store is the fresh empty
schema: pre-existing tables and data are destroyed, not untouched. -/
theorem c1_abort_after_schema_reset (store : Option DB) (exc : Nat → Option Nat) :
    (import_csv_to_db store none exc).aborted = true ∧
    (import_csv_to_db store none exc).committed = freshSchema ∧
    (import_csv_to_db store none exc).log = [] ∧
    (import_csv_to_db store (some []) exc).aborted = true ∧
    (import_csv_to_db store (some []) exc).committed = freshSchema ∧
    (import_csv_to_db store (some []) exc).log = [] :=
  ⟨rfl, rfl, rfl, rfl, rfl, rfl⟩

/-- C2 counterexample: the claim says a row whose processing raises
contributes no persisted data.  On a two-row input where row 1 raises
right after its `Anime` insert (during the genre loop), the exception
is caught and logged, the batch continues — and the failing row's
AnimeRecord (external id 1) is persisted by the final commit. -/
theorem c2_failed_row_leaves_partial_record :
    (import_csv_to_db none
      (some [["MAL_ID", "Genres"], ["1", "['Action']"], ["2", "['Comedy']"]])
      fun i => if i = 1 then some 1 else none).log =
      [Msg.complete 2, Msg.rowSkipped 1] ∧
    (import_csv_to_db none
      (some [["MAL_ID", "Genres"], ["1", "['Action']"], ["2", "['Comedy']"]])
      fun i => if i = 1 then some 1 else none).committed.anime.map
        AnimeRow.mal_id = [1, 2] := by
  exact ⟨by decide, by decide⟩

/-- C2 (amended): for every row whose external id parses as a number,
an exception raised while the row is processed is caught, logged with
the row's 1-based index, and the batch continues with the inserted
count and the committed store untouched by the failure — but the
database calls already made for the row (including its AnimeRecord
insert) stay in the open transaction and are persisted by a later
commit, as the concrete two-row run shows: the failing first row's
record survives with its external id while the second row imports
fully. -/
theorem c2_row_exception_logged_skip (hdrv : List String × List String) :
    (∀ (exc : Nat → Option Nat) (st : RunSt) (i : Nat) (mid : Int) (k : Nat),
      pyStrip (g hdrv.1 hdrv.2 ["mal_id", "mal id", "id"]) ≠ "" →
      intFloat (pyStrip (g hdrv.1 hdrv.2 ["mal_id", "mal id", "id"])) = some mid →
      exc i = some k → k < opsFor hdrv.1 hdrv.2 →
      (doRow hdrv.1 exc st i hdrv.2).log = Msg.rowSkipped i :: st.log ∧
      (doRow hdrv.1 exc st i hdrv.2).inserted = st.inserted ∧
      (doRow hdrv.1 exc st i hdrv.2).committed = st.committed) ∧
    (import_csv_to_db none
      (some [["MAL_ID", "Genres"], ["1", "['Action']"], ["2", "['Comedy']"]])
      fun i => if i = 1 then some 1 else none).aborted = false ∧
    (import_csv_to_db none
      (some [["MAL_ID", "Genres"], ["1", "['Action']"], ["2", "['Comedy']"]])
      fun i => if i = 1 then some 1 else none).committed.anime.map
        AnimeRow.mal_id = [1, 2] ∧
    (import_csv_to_db none
      (some [["MAL_ID", "Genres"], ["1", "['Action']"], ["2", "['Comedy']"]])
      fun i => if i = 1 then some 1 else none).committed.links = [(2, 1)] := by
  refine ⟨?_, by decide, by decide, by decide⟩
  intro exc st i mid k h1 h2 h3 h4
  unfold doRow
  rw [if_neg h1, h2, h3]
  have ht := tryRow_exception hdrv.1 st i hdrv.2 mid k h4
  exact ⟨congrArg (fun p => p.1) ht,
    congrArg (fun p => p.2.1) ht,
    congrArg (fun p => p.2.2) ht⟩

/-- C2 witness: a one-column row with external id 1 whose single
`cur.execute` call raises is logged as skipped and leaves the inserted
count at zero. -/
theorem c2_row_exception_logged_skip_witness :
    pyStrip (g ["MAL_ID"] ["1"] ["mal_id", "mal id", "id"]) ≠ "" ∧
    (doRow ["MAL_ID"] (fun _ => some 0)
      ⟨freshSchema, freshSchema, 0, []⟩ 1 ["1"]).log = [Msg.rowSkipped 1] ∧
    (doRow ["MAL_ID"] (fun _ => some 0)
      ⟨freshSchema, freshSchema, 0, []⟩ 1 ["1"]).inserted = 0 := by
  have hth := (c2_row_exception_logged_skip (["MAL_ID"], ["1"])).1
    (fun _ => some 0) ⟨freshSchema, freshSchema, 0, []⟩ 1 1 0
    (by decide) (by decide) rfl (by decide)
  exact ⟨by decide, hth.1, hth.2.1⟩

/-- C4 counterexample: the claim says a row with an empty external id is
skipped *with a logged reason*.  On a run whose only data row has a
blank id, the row is skipped and nothing is persisted — but the log
holds only the final summary: no reason is logged. -/
theorem c4_blank_id_skip_is_silent :
    (import_csv_to_db none (some [["MAL_ID", "Title"], ["", "X"]])
      fun _ => none).aborted = false ∧
    (import_csv_to_db none (some [["MAL_ID", "Title"], ["", "X"]])
      fun _ => none).committed.anime = [] ∧
    (import_csv_to_db none (some [["MAL_ID", "Title"], ["", "X"]])
      fun _ => none).log = [Msg.complete 0] := by
  exact ⟨rfl, by decide, by decide⟩

/-- C4 (amended): for every input row whose external-id field is empty
or does not parse as a number, no AnimeRecord and no AnimeGenreLink
rows are persisted for that row and the state is completely unchanged —
the row is skipped silently (no reason is logged) and the batch
continues; such rows are never fatal to the batch. -/
theorem c4_invalid_id_row_skipped_silently :
    (∀ (header : List String) (exc : Nat → Option Nat) (st : RunSt)
      (i : Nat) (vals : List String),
      (pyStrip (g header vals ["mal_id", "mal id", "id"]) = "" ∨
        intFloat (pyStrip (g header vals ["mal_id", "mal id", "id"])) = none) →
      doRow header exc st i vals = st) ∧
    (∀ (store : Option DB) (header : List String) (rows : List (List String))
      (exc : Nat → Option Nat),
      (import_csv_to_db store (some (header :: rows)) exc).aborted = false) := by
  constructor
  · intro header exc st i vals h
    unfold doRow
    rcases h with h | h
    · rw [if_pos h]
    · by_cases he : pyStrip (g header vals ["mal_id", "mal id", "id"]) = ""
      · rw [if_pos he]
      · rw [if_neg he, h]
  · intro store header rows exc
    rfl

/-- C4 witness: a blank external id leaves the run state exactly as it
was (nothing persisted, nothing logged). -/
theorem c4_invalid_id_row_skipped_silently_witness :
    pyStrip (g ["MAL_ID"] [""] ["mal_id", "mal id", "id"]) = "" ∧
    doRow ["MAL_ID"] (fun _ => none) ⟨freshSchema, freshSchema, 0, []⟩ 1 [""] =
      ⟨freshSchema, freshSchema, 0, []⟩ :=
  ⟨by decide,
    c4_invalid_id_row_skipped_silently.1 ["MAL_ID"] (fun _ => none)
      ⟨freshSchema, freshSchema, 0, []⟩ 1 [""] (Or.inl (by decide))⟩

/-- C5: genre names are de-duplicated case-sensitively across the
whole import — after any run the `Genres` table holds at most one row per
exact name — and on a two-record input both listing `Action`, exactly
one `Action` row exists and two links reference it. -/
theorem c5_genre_names_unique :
    (∀ (store : Option DB) (csv : Option (List (List String))) (exc : Nat → Option Nat),
      (genreNames (import_csv_to_db store csv exc).committed).Nodup) ∧
    (import_csv_to_db none (some
      [["MAL_ID", "Genre"], ["1", "['Action']"], ["2", "['Action']"]])
      fun _ => none).committed.genres = [(1, "Action")] ∧
    (import_csv_to_db none (some
      [["MAL_ID", "Genre"], ["1", "['Action']"], ["2", "['Action']"]])
      fun _ => none).committed.links = [(1, 1), (2, 1)] := by
  refine ⟨?_, by decide, by decide⟩
  intro store csv exc
  unfold import_csv_to_db
  match csv with
  | none => simp [genreNames, freshSchema]
  | some [] => simp [genreNames, freshSchema]
  | some (header :: rows) =>
    simp only []
    exact nodup_runRows header exc rows _ 1 (by simp [genreNames, freshSchema])
